import Mathlib

/-!
Verification of the KAiSurf reward-ledger backend.

This file shallowly embeds the authenticated reward-ledger flow of the
repository: the JWT authentication decorator and trusted-service gate, the
`/earn/kones` credit handler and `/webhook/sync` audit handler from
`kaisurf_secured_app.py` (with its ORM models from `models.py`), and the
balance / ledger read endpoints from `kaisurf_test.py`.  Database tables
are modelled as Lean lists in row-insertion (auto-increment id) order;
SQLAlchemy timestamps are modelled by a monotone logical clock stamped on
each committed write, so ordering by timestamp descending coincides with
reverse insertion order.
-/

/-- A JSON value as produced by `request.get_json()`.  Floating-point
numbers are outside the modelled fragment (no claim involves them). -/
inductive JVal where
  | jnull : JVal
  | jbool : Bool → JVal
  | jint : Int → JVal
  | jstr : String → JVal
  | jarr : List JVal → JVal
  | jobj : List (String × JVal) → JVal

/-- Python truthiness (`bool(x)`) on the modelled JSON fragment:
`None`, `False`, `0`, `""`, `[]` and `{}` are falsy. -/
def JVal.truthy : JVal → Bool
  | .jnull => false
  | .jbool b => b
  | .jint n => n != 0
  | .jstr s => s != ""
  | .jarr xs => !xs.isEmpty
  | .jobj fs => !fs.isEmpty

/-- `d[k]` lookup on a JSON object (Python dict keys are unique, so
first-match lookup is faithful). -/
def jlookup : List (String × JVal) → String → Option JVal
  | [], _ => none
  | (k, v) :: rest, key => if k = key then some v else jlookup rest key

/-- `d.get(k)` on a JSON object: a missing key yields `None` (`jnull`). -/
def jget (d : List (String × JVal)) (key : String) : JVal :=
  (jlookup d key).getD .jnull

/-- Parse a decimal digit run, as accepted by Python `int(str)` after sign
stripping.  Digit-group underscores of Python are outside the modelled
fragment (no claim involves them). -/
def digitsToNat : List Char → Option Nat
  | [] => none
  | cs => if cs.all Char.isDigit then
      some (cs.foldl (fun a c => a * 10 + (c.toNat - 48)) 0)
    else none

/-- Strip leading and trailing whitespace from a character list, as
Python `int(str)` does before parsing. -/
def stripWs (cs : List Char) : List Char :=
  ((cs.dropWhile Char.isWhitespace).reverse.dropWhile Char.isWhitespace).reverse

/-- Python `int(s)` on a string: strip surrounding whitespace, optional
sign, then a non-empty digit run; anything else raises `ValueError`. -/
def pyStrToInt (s : String) : Option Int :=
  match stripWs s.toList with
  | '+' :: cs => (digitsToNat cs).map Int.ofNat
  | '-' :: cs => (digitsToNat cs).map (fun n => -(n : Int))
  | cs => (digitsToNat cs).map Int.ofNat

/-- The exceptions `int(x)` can raise in `earn_kones`. -/
inductive PyErr where
  | valueError : PyErr
  | typeError : PyErr

/-- Python `int(x)` on a JSON value: ints pass through, bools coerce,
strings are parsed (`ValueError` on failure), and `None` / lists / dicts
raise `TypeError` — which `earn_kones` does **not** catch. -/
def pyToInt : JVal → Except PyErr Int
  | .jint n => .ok n
  | .jbool b => .ok (if b then 1 else 0)
  | .jstr s =>
    match pyStrToInt s with
    | some n => .ok n
    | none => .error .valueError
  | .jnull => .error .typeError
  | .jarr _ => .error .typeError
  | .jobj _ => .error .typeError

/-- Python `str.upper()` restricted to the ASCII fragment. -/
def pyUpper (s : String) : String := String.mk (s.toList.map Char.toUpper)

/-- Python `str.replace(' ', '_')`. -/
def pyReplaceSpace (s : String) : String :=
  String.mk (s.toList.map (fun c => if c = ' ' then '_' else c))

/-- A `KonesBalance` row (`models.py`): user foreign key, integer balance,
last-updated stamp.  Note the table has **no** uniqueness constraint on
`user_auth_uid`; only an auto-increment primary key. -/
structure BalRow where
  user : String
  balance : Int
  lastUpdated : Nat
deriving DecidableEq

/-- A `KonesLedger` row (`models.py`): user foreign key, signed amount,
the request-supplied description value, timestamp. -/
structure LedgerRow where
  user : String
  amount : Int
  description : JVal
  timestamp : Nat

/-- A `Chronolog` row (`models.py`): user foreign key, event-type tag,
JSON payload, timestamp. -/
structure ChronoRow where
  user : String
  event_type : String
  payload : JVal
  timestamp : Nat

/-- The durable store: registered identities (`User.auth_uid` rows) and the
three owned tables, each in insertion order, plus the logical clock that
stamps committed writes. -/
structure Store where
  users : List String
  balances : List BalRow
  ledger : List LedgerRow
  chronolog : List ChronoRow
  time : Nat

/-- A fresh store holding the given identities and no owned rows. -/
def initStore (us : List String) : Store :=
  ⟨us, [], [], [], 0⟩

/-- `KonesBalance.query.filter_by(user_auth_uid=uid).first()`: the first
row of the table matching the identity, if any. -/
def findBalance (uid : String) : List BalRow → Option BalRow
  | [] => none
  | r :: rs => if r.user = uid then some r else findBalance uid rs

/-- The stored balance an identity reads back: the `balance` column of its
first `KonesBalance` row, or 0 when no row exists. -/
def storedBalance (uid : String) (l : List BalRow) : Int :=
  match findBalance uid l with
  | some r => r.balance
  | none => 0

/-- `balance_record.balance += amount; balance_record.last_updated = now`
applied to the first matching row (the row `filter_by(...).first()`
returned). -/
def creditFirst (uid : String) (a : Int) (t : Nat) : List BalRow → List BalRow
  | [] => []
  | r :: rs =>
    if r.user = uid then { r with balance := r.balance + a, lastUpdated := t } :: rs
    else r :: creditFirst uid a t rs

/-- Steps 1-2 of `earn_kones` (lines 176-189): look up the identity's
first `KonesBalance` row, create a zero row if absent (`db.session.add`
appends it to the table), then increment the looked-up row in place. -/
def upsertCredit (uid : String) (a : Int) (t : Nat) (bs : List BalRow) : List BalRow :=
  let balances1 :=
    match findBalance uid bs with
    | some _ => bs
    | none => bs ++ [⟨uid, 0, t⟩]
  creditFirst uid a t balances1

/-- Sum of the `amount` column over an identity's `KonesLedger` rows. -/
def ledgerSum (uid : String) : List LedgerRow → Int
  | [] => 0
  | e :: es => (if e.user = uid then e.amount else 0) + ledgerSum uid es

/-- An HTTP response in the modelled fragment: status, message, and the
optional `new_balance` / `event_type` JSON fields. -/
structure HttpResp where
  status : Nat
  msg : String
  newBalance : Option Int
  eventType : Option String

/-- The `/earn/kones` handler body (`earn_kones`, `kaisurf_secured_app.py`
lines 149-206), acting for an authenticated identity on a parsed request
body (`none` models a `null` JSON body).  Validation failures return
before any mutation; an uncaught `TypeError` from `int(data['amount'])`
surfaces as a 500 with no mutation (the session is never committed). -/
def earnKones (uid : String) (data : Option (List (String × JVal))) (s : Store) :
    HttpResp × Store :=
  match data with
  | none => (⟨400, "Missing required fields: amount and description.", none, none⟩, s)
  | some d =>
    if d.isEmpty then
      (⟨400, "Missing required fields: amount and description.", none, none⟩, s)
    else
      match jlookup d "amount", jlookup d "description" with
      | some av, some dv =>
        (match pyToInt av with
        | .error .valueError => (⟨400, "Amount must be an integer.", none, none⟩, s)
        | .error .typeError => (⟨500, "Internal Server Error", none, none⟩, s)
        | .ok amount =>
          if amount ≤ 0 then (⟨400, "Amount must be positive.", none, none⟩, s)
          else
            let balances2 := upsertCredit uid amount s.time s.balances
            (⟨200, "Successfully added " ++ toString amount ++ " Kones.",
              some (storedBalance uid balances2), none⟩,
             { s with balances := balances2,
                      ledger := s.ledger ++ [⟨uid, amount, dv, s.time⟩],
                      time := s.time + 1 }))
      | _, _ =>
        (⟨400, "Missing required fields: amount and description.", none, none⟩, s)

/-- The `/webhook/sync` handler body (`webhook_sync`,
`kaisurf_secured_app.py` lines 209-243).  A `null` body crashes on
`data.get` (uncaught `AttributeError` → 500); a falsy `event_type` or
`payload` is a 400; a truthy non-string `event_type` crashes on
`.upper()` (500); otherwise one `Chronolog` row is committed with the
normalized `WEBHOOK_` tag. -/
def webhookSync (uid : String) (data : Option (List (String × JVal))) (s : Store) :
    HttpResp × Store :=
  match data with
  | none => (⟨500, "Internal Server Error", none, none⟩, s)
  | some d =>
    let et := jget d "event_type"
    let pl := jget d "payload"
    if !et.truthy || !pl.truthy then
      (⟨400, "Request must include 'event_type' and 'payload'.", none, none⟩, s)
    else
      match et with
      | .jstr sev =>
        let tag := "WEBHOOK_" ++ pyReplaceSpace (pyUpper sev)
        (⟨200, "Webhook event processed.", none, some tag⟩,
         { s with chronolog := s.chronolog ++ [⟨uid, tag, pl, s.time⟩],
                  time := s.time + 1 })
      | _ => (⟨500, "Internal Server Error", none, none⟩, s)

/-- The `/kones/balance` handler (`get_kones_balance`, `kaisurf_test.py`
lines 255-263), with user keys unified to the identity string: reads the
balance row and, when absent, **creates and commits** a zero row. -/
def getKonesBalance (uid : String) (s : Store) : HttpResp × Store :=
  match findBalance uid s.balances with
  | some b => (⟨200, "", some b.balance, none⟩, s)
  | none =>
    (⟨200, "", some 0, none⟩,
     { s with balances := s.balances ++ [⟨uid, 0, s.time⟩], time := s.time + 1 })

/-- The newest-first ledger history (`get_kones_ledger`,
`kaisurf_test.py` lines 265-274: `order_by(timestamp.desc())`).  Stamped
times are strictly monotone in insertion order, so this is the reverse of
the table's insertion order restricted to the identity. -/
def ledgerHistory (uid : String) (s : Store) : List LedgerRow :=
  (s.ledger.filter (fun e => e.user == uid)).reverse

/-- The `/kones/ledger` handler: a pure snapshot read. -/
def getKonesLedger (uid : String) (s : Store) : List LedgerRow × Store :=
  (ledgerHistory uid s, s)

/-- A bearer token's decoded content together with the secret it was
actually signed with: the signature verifies against a given secret
exactly when the two secrets coincide (HS256 with a shared key). -/
structure JwtToken where
  sub : Option String
  exp : Option Int
  signedWith : String

/-- The token string extracted from a `Bearer ` header: either not
decodable at all, or a well-formed signed token. -/
inductive TokenStr where
  | malformed : TokenStr
  | good : JwtToken → TokenStr

/-- The `Authorization` header as `get_user_from_auth_header` inspects it:
absent, present without the `Bearer ` prefix, or a bearer credential. -/
inductive Header where
  | missing : Header
  | notBearer : Header
  | bearer : TokenStr → Header

/-- The errors `jwt.decode` raises, as caught by the handler:
`DecodeError` and `InvalidSignatureError` are both `InvalidTokenError`
subclasses, `ExpiredSignatureError` is distinct. -/
inductive JwtErr where
  | decodeErr : JwtErr
  | badSignature : JwtErr
  | expired : JwtErr

/-- `jwt.decode(token, secret, algorithms=["HS256"])` (PyJWT): structural
decoding and signature verification run first, then the `exp` claim is
checked against the current time. -/
def jwtDecode (secret : String) (now : Int) : TokenStr → Except JwtErr JwtToken
  | .malformed => .error .decodeErr
  | .good t =>
    if t.signedWith ≠ secret then .error .badSignature
    else
      match t.exp with
      | some e => if e < now then .error .expired else .ok t
      | none => .ok t

/-- The result of the authentication decorator: a resolved identity, or a
terminal error response. -/
inductive AuthResult where
  | ok : String → AuthResult
  | err : Nat → String → AuthResult
deriving DecidableEq

/-- The `get_user_from_auth_header` decorator (`kaisurf_secured_app.py`
lines 53-105): header shape check, configured-secret check (`not
jwt_secret` is also true for an empty string), `jwt.decode`, subject-claim
truthiness check, then the store lookup of the subject. -/
def getUserFromAuthHeader (jwtSecret : Option String) (s : Store) (now : Int) :
    Header → AuthResult
  | .missing => .err 401 "Missing or invalid Authorization header."
  | .notBearer => .err 401 "Missing or invalid Authorization header."
  | .bearer ts =>
    match jwtSecret with
    | none => .err 500 "Server misconfiguration."
    | some secret =>
      if secret = "" then .err 500 "Server misconfiguration."
      else
        match jwtDecode secret now ts with
        | .error .expired => .err 401 "JWT has expired."
        | .error .decodeErr => .err 401 "Invalid format."
        | .error .badSignature => .err 401 "Invalid format."
        | .ok t =>
          match t.sub with
          | none => .err 401 "Invalid JWT payload."
          | some u =>
            if u = "" then .err 401 "Invalid JWT payload."
            else if s.users.contains u then .ok u
            else .err 404 "User not found in database."

/-- The `trusted_service_required` decorator (`kaisurf_secured_app.py`
lines 108-126): the request's `X-Api-Key` header (absent → `None`) is
compared for equality with the configured key; any mismatch is the one
403 outcome, `none` meaning the gate passes. -/
def trustedGate (trustedKey apiKey : Option String) : Option (Nat × String) :=
  if apiKey = trustedKey then none
  else some (403, "Invalid API Key for trusted service.")

/-- One store-mutating request made by an authenticated identity: the four
operations of the modelled surface. -/
inductive Op where
  | credit : String → Option (List (String × JVal)) → Op
  | webhook : String → Option (List (String × JVal)) → Op
  | readBalance : String → Op
  | readLedger : String → Op

/-- The store after one operation (responses discarded). -/
def stepOp (s : Store) : Op → Store
  | .credit uid d => (earnKones uid d s).2
  | .webhook uid d => (webhookSync uid d s).2
  | .readBalance uid => (getKonesBalance uid s).2
  | .readLedger uid => (getKonesLedger uid s).2

/-- The store after a sequence of operations. -/
def runOps (s : Store) (ops : List Op) : Store :=
  ops.foldl stepOp s

theorem findBalance_append_some {u : String} {l : List BalRow} {r : BalRow}
    (h : findBalance u l = some r) (l' : List BalRow) :
    findBalance u (l ++ l') = some r := by
  induction l with
  | nil => simp [findBalance] at h
  | cons x xs ih =>
    by_cases hx : x.user = u
    · simp [findBalance, hx] at h ⊢; exact h
    · simp [findBalance, hx] at h ⊢; exact ih h

theorem findBalance_append_none {u : String} {l : List BalRow}
    (h : findBalance u l = none) (l' : List BalRow) :
    findBalance u (l ++ l') = findBalance u l' := by
  induction l with
  | nil => simp
  | cons x xs ih =>
    by_cases hx : x.user = u
    · simp [findBalance, hx] at h
    · simp [findBalance, hx] at h ⊢; exact ih h

theorem findBalance_creditFirst_ne {u uid : String} (a : Int) (t : Nat)
    (l : List BalRow) (h : u ≠ uid) :
    findBalance u (creditFirst uid a t l) = findBalance u l := by
  induction l with
  | nil => rfl
  | cons r rs ih =>
    by_cases hr : r.user = uid
    · have huid : ¬ uid = u := fun he => h he.symm
      have hru : ¬ r.user = u := by rw [hr]; exact huid
      simp [creditFirst, hr, findBalance, hru, huid]
    · by_cases hru : r.user = u
      · simp [creditFirst, hr, findBalance, hru, h]
      · simp [creditFirst, hr, findBalance, hru, ih]

theorem storedBalance_creditFirst_self {uid : String} (a : Int) (t : Nat)
    {l : List BalRow} {r : BalRow} (h : findBalance uid l = some r) :
    storedBalance uid (creditFirst uid a t l) = r.balance + a := by
  induction l with
  | nil => simp [findBalance] at h
  | cons x xs ih =>
    by_cases hx : x.user = uid
    · simp [findBalance, hx] at h
      subst h
      simp [creditFirst, hx, storedBalance, findBalance]
    · simp [findBalance, hx] at h
      simp [creditFirst, hx, storedBalance, findBalance, ih h]
      rw [← storedBalance, ih h]

theorem storedBalance_upsertCredit (uid : String) (a : Int) (t : Nat)
    (bs : List BalRow) (u : String) :
    storedBalance u (upsertCredit uid a t bs)
      = storedBalance u bs + (if u = uid then a else 0) := by
  by_cases hu : u = uid
  · subst hu
    cases hfind : findBalance u bs with
    | some r =>
      simp only [upsertCredit, hfind]
      rw [storedBalance_creditFirst_self a t hfind, storedBalance, hfind]
      simp
    | none =>
      have h1 : findBalance u (bs ++ [⟨u, 0, t⟩]) = some ⟨u, 0, t⟩ := by
        rw [findBalance_append_none hfind]
        simp [findBalance]
      simp only [upsertCredit, hfind]
      rw [storedBalance_creditFirst_self a t h1, storedBalance, hfind]
      simp
  · have huid : uid ≠ u := fun he => hu he.symm
    simp only [upsertCredit]
    cases hfind : findBalance uid bs with
    | some r =>
      simp only [hfind]
      rw [storedBalance, findBalance_creditFirst_ne a t bs hu, ← storedBalance]
      simp [hu]
    | none =>
      simp only [hfind]
      rw [storedBalance, findBalance_creditFirst_ne a t _ hu]
      cases hf : findBalance u bs with
      | some x =>
        rw [findBalance_append_some hf, ← hf, ← storedBalance]
        simp [hu]
      | none =>
        rw [findBalance_append_none hf]
        simp [findBalance, huid, storedBalance, hf, hu]

theorem ledgerSum_append (uid : String) (l l' : List LedgerRow) :
    ledgerSum uid (l ++ l') = ledgerSum uid l + ledgerSum uid l' := by
  induction l with
  | nil => simp [ledgerSum]
  | cons e es ih => simp [ledgerSum, ih]; ring

theorem storedBalance_append_zero {uid : String} (t : Nat) {bs : List BalRow}
    (h : findBalance uid bs = none) (u : String) :
    storedBalance u (bs ++ [⟨uid, 0, t⟩]) = storedBalance u bs := by
  by_cases hu : u = uid
  · subst hu
    rw [storedBalance, findBalance_append_none h]
    simp [findBalance, storedBalance, h]
  · have huid : ¬ uid = u := fun he => hu he.symm
    cases hf : findBalance u bs with
    | some x => rw [storedBalance, findBalance_append_some hf, ← hf, ← storedBalance]
    | none =>
      rw [storedBalance, findBalance_append_none hf]
      simp [findBalance, huid, storedBalance, hf]

theorem earnKones_state (uid : String) (d : Option (List (String × JVal))) (s : Store) :
    (earnKones uid d s).2 = s ∨
    ∃ a dv, 0 < a ∧ (earnKones uid d s).2 =
      { s with balances := upsertCredit uid a s.time s.balances,
               ledger := s.ledger ++ [⟨uid, a, dv, s.time⟩],
               time := s.time + 1 } := by
  unfold earnKones
  cases d with
  | none => exact Or.inl rfl
  | some dd =>
    dsimp only
    split
    · exact Or.inl rfl
    · split
      · split
        · exact Or.inl rfl
        · exact Or.inl rfl
        · next a _ =>
          split
          · exact Or.inl rfl
          · next hle =>
            exact Or.inr ⟨a, _, by omega, rfl⟩
      · exact Or.inl rfl

theorem webhookSync_frame (uid : String) (d : Option (List (String × JVal))) (s : Store) :
    ((webhookSync uid d s).2).balances = s.balances ∧
    ((webhookSync uid d s).2).ledger = s.ledger := by
  unfold webhookSync
  cases d with
  | none => exact ⟨rfl, rfl⟩
  | some dd =>
    dsimp only
    split
    · exact ⟨rfl, rfl⟩
    · split <;> exact ⟨rfl, rfl⟩

theorem getKonesBalance_state (uid : String) (s : Store) :
    (getKonesBalance uid s).2 = s ∨
    (findBalance uid s.balances = none ∧ (getKonesBalance uid s).2 =
      { s with balances := s.balances ++ [⟨uid, 0, s.time⟩], time := s.time + 1 }) := by
  unfold getKonesBalance
  cases hf : findBalance uid s.balances with
  | some b => exact Or.inl rfl
  | none => exact Or.inr ⟨rfl, rfl⟩

theorem invariant_step (s : Store) (op : Op)
    (h : ∀ u, storedBalance u s.balances = ledgerSum u s.ledger) :
    ∀ u, storedBalance u (stepOp s op).balances = ledgerSum u (stepOp s op).ledger := by
  intro u
  cases op with
  | credit uid d =>
    show storedBalance u ((earnKones uid d s).2).balances
        = ledgerSum u ((earnKones uid d s).2).ledger
    rcases earnKones_state uid d s with heq | ⟨a, dv, _, heq⟩
    · rw [heq]; exact h u
    · rw [heq]
      dsimp only
      rw [storedBalance_upsertCredit, ledgerSum_append, h u]
      by_cases hu : u = uid
      · subst hu; simp [ledgerSum]
      · have huid : ¬ uid = u := fun he => hu he.symm
        simp [ledgerSum, hu, huid]
  | webhook uid d =>
    show storedBalance u ((webhookSync uid d s).2).balances
        = ledgerSum u ((webhookSync uid d s).2).ledger
    rw [(webhookSync_frame uid d s).1, (webhookSync_frame uid d s).2]
    exact h u
  | readBalance uid =>
    show storedBalance u ((getKonesBalance uid s).2).balances
        = ledgerSum u ((getKonesBalance uid s).2).ledger
    rcases getKonesBalance_state uid s with heq | ⟨hf, heq⟩
    · rw [heq]; exact h u
    · rw [heq]
      dsimp only
      rw [storedBalance_append_zero s.time hf u]
      exact h u
  | readLedger uid => exact h u

/-- **C1**: for every identity and after every sequence of operations
(credits, webhook recordings, balance and ledger reads) starting from a
fresh store, the stored `KonesBalance` of that identity equals the sum of
the `amount` columns of its `KonesLedger` rows — in particular a fresh
identity with no entries reads balance 0. -/
theorem balance_ledger_invariant (us : List String) (ops : List Op) (uid : String) :
    storedBalance uid (runOps (initStore us) ops).balances
      = ledgerSum uid (runOps (initStore us) ops).ledger := by
  suffices hgen : ∀ ops2 (s : Store),
      (∀ u, storedBalance u s.balances = ledgerSum u s.ledger) →
      ∀ u, storedBalance u (runOps s ops2).balances = ledgerSum u (runOps s ops2).ledger by
    exact hgen ops (initStore us) (fun _ => rfl) uid
  intro ops2
  induction ops2 with
  | nil => intro s hs u; exact hs u
  | cons op rest ih =>
    intro s hs u
    have hstep := invariant_step s op hs
    have : runOps s (op :: rest) = runOps (stepOp s op) rest := by
      simp [runOps, List.foldl]
    rw [this]
    exact ih (stepOp s op) hstep u

theorem jlookup_isEmpty_false {d : List (String × JVal)} {k : String} {v : JVal}
    (h : jlookup d k = some v) : d.isEmpty = false := by
  cases d with
  | nil => simp [jlookup] at h
  | cons x xs => rfl

theorem ledgerHistory_snoc (uid : String) (s s' : Store) (e : LedgerRow)
    (h : s'.ledger = s.ledger ++ [e]) (he : e.user = uid) :
    ledgerHistory uid s' = e :: ledgerHistory uid s := by
  unfold ledgerHistory
  rw [h, List.filter_append]
  simp [List.filter, he]

/-- **C2**: for every authenticated identity and request whose `amount`
parses to `a > 0` and whose `description` is a non-empty string, the
credit succeeds with `new_balance` equal to the pre-credit stored balance
plus `a` (0 when no `KonesBalance` row existed), appends exactly one new
`KonesLedger` row with amount `a`, and that row is the head of the
newest-first ledger history. -/
theorem credit_success_spec (uid : String) (d : List (String × JVal)) (s : Store)
    (av : JVal) (a : Int) (ds : String)
    (hav : jlookup d "amount" = some av)
    (hparse : pyToInt av = .ok a)
    (hpos : 0 < a)
    (hdesc : jlookup d "description" = some (.jstr ds))
    (_hne : ds ≠ "") :
    earnKones uid (some d) s =
      (⟨200, "Successfully added " ++ toString a ++ " Kones.",
        some (storedBalance uid s.balances + a), none⟩,
       { s with balances := upsertCredit uid a s.time s.balances,
                ledger := s.ledger ++ [⟨uid, a, .jstr ds, s.time⟩],
                time := s.time + 1 }) ∧
    ledgerHistory uid (earnKones uid (some d) s).2
      = (⟨uid, a, .jstr ds, s.time⟩ : LedgerRow) :: ledgerHistory uid s := by
  have hie := jlookup_isEmpty_false hav
  have hnle : ¬ a ≤ 0 := by omega
  have hmain : earnKones uid (some d) s =
      (⟨200, "Successfully added " ++ toString a ++ " Kones.",
        some (storedBalance uid s.balances + a), none⟩,
       { s with balances := upsertCredit uid a s.time s.balances,
                ledger := s.ledger ++ [⟨uid, a, .jstr ds, s.time⟩],
                time := s.time + 1 }) := by
    unfold earnKones
    dsimp only
    rw [hav, hdesc]
    simp only [hie, Bool.false_eq_true, if_false, hparse, hnle, if_neg hnle]
    have hbal : storedBalance uid (upsertCredit uid a s.time s.balances)
        = storedBalance uid s.balances + a := by
      rw [storedBalance_upsertCredit]
      simp
    rw [hbal]
  refine ⟨hmain, ?_⟩
  rw [hmain]
  exact ledgerHistory_snoc uid s _ _ rfl rfl

/-- Witness for `credit_success_spec`: the spec's own scenario, a fresh
identity credited 50 with description `bonus`. -/
theorem credit_success_spec_witness :
    earnKones "u1" (some [("amount", JVal.jint 50), ("description", JVal.jstr "bonus")])
        (initStore ["u1"]) =
      (⟨200, "Successfully added 50 Kones.", some 50, none⟩,
       { users := ["u1"], balances := [⟨"u1", 50, 0⟩],
         ledger := [⟨"u1", 50, .jstr "bonus", 0⟩], chronolog := [], time := 1 }) ∧
    ledgerHistory "u1"
        (earnKones "u1"
          (some [("amount", JVal.jint 50), ("description", JVal.jstr "bonus")])
          (initStore ["u1"])).2
      = [⟨"u1", 50, .jstr "bonus", 0⟩] := by
  have h := credit_success_spec "u1"
    [("amount", JVal.jint 50), ("description", JVal.jstr "bonus")]
    (initStore ["u1"]) (JVal.jint 50) 50 "bonus" rfl rfl (by decide) rfl (by decide)
  exact ⟨h.1.trans rfl, h.2.trans rfl⟩

/-- **C3 counterexample**: a credit request whose `description` is the
empty string is *not* rejected — `earn_kones` only checks key presence,
never emptiness — so it succeeds (status 200) and writes a ledger row,
refuting the claim that an empty description yields a validation error
with no mutation. -/
theorem credit_empty_description_accepted :
    (earnKones "u1" (some [("amount", JVal.jint 5), ("description", JVal.jstr "")])
        (initStore ["u1"])).1.status = 200 ∧
    ((earnKones "u1" (some [("amount", JVal.jint 5), ("description", JVal.jstr "")])
        (initStore ["u1"])).2).ledger.length = 1 := by
  exact ⟨rfl, rfl⟩

/-- The request conditions under which `earn_kones` answers with a 400
validation error: missing/empty body or a missing required key, an
`amount` on which `int()` raises `ValueError`, or a parsed amount ≤ 0.
(An `amount` on which `int()` raises `TypeError` — `null`, list, object —
is *not* here: it escapes as an uncaught exception, a 500.) -/
def creditValidationErr : Option (List (String × JVal)) → Prop
  | none => True
  | some d =>
      d.isEmpty = true ∨ jlookup d "amount" = none ∨ jlookup d "description" = none ∨
      (∃ av, jlookup d "amount" = some av ∧ pyToInt av = .error .valueError) ∨
      (∃ av a, jlookup d "amount" = some av ∧ pyToInt av = .ok a ∧ a ≤ 0)

/-- **C3 (amended)**: the credit operation returns a 400 validation error
exactly when the body is missing/empty, a required key (`amount`,
`description`) is absent, the `amount` raises `ValueError` in `int()`, or
the parsed amount is ≤ 0 — an empty (but present) `description` is
accepted, and a `null`/list/object `amount` instead escapes as a 500;
on every non-success outcome the store is unchanged. -/
theorem credit_validation_amended (uid : String)
    (data : Option (List (String × JVal))) (s : Store) :
    ((earnKones uid data s).1.status = 400 ↔ creditValidationErr data) ∧
    ((earnKones uid data s).1.status ≠ 200 → (earnKones uid data s).2 = s) := by
  cases data with
  | none =>
    constructor
    · exact iff_of_true rfl trivial
    · intro _; rfl
  | some d =>
    unfold earnKones
    dsimp only
    cases hie : d.isEmpty with
    | true =>
      constructor
      · refine iff_of_true rfl ?_
        exact Or.inl hie
      · intro _; rfl
    | false =>
      cases hav : jlookup d "amount" with
      | none =>
        constructor
        · refine iff_of_true rfl ?_
          exact Or.inr (Or.inl hav)
        · intro _; rfl
      | some av =>
        cases hdv : jlookup d "description" with
        | none =>
          constructor
          · refine iff_of_true rfl ?_
            exact Or.inr (Or.inr (Or.inl hdv))
          · intro _; rfl
        | some dv =>
          dsimp only
          cases hp : pyToInt av with
          | error pe =>
            cases pe with
            | valueError =>
              constructor
              · refine iff_of_true rfl ?_
                exact Or.inr (Or.inr (Or.inr (Or.inl ⟨av, hav, hp⟩)))
              · intro _; rfl
            | typeError =>
              constructor
              · refine iff_of_false ?_ ?_
                · show ¬ (500 : Nat) = 400
                  decide
                · intro hcv
                  unfold creditValidationErr at hcv
                  rcases hcv with h | h | h | ⟨av2, hav2, hp2⟩ | ⟨av2, a2, hav2, hp2, h3⟩
                  · rw [hie] at h; exact Bool.false_ne_true h
                  · rw [hav] at h; exact Option.some_ne_none av h
                  · rw [hdv] at h; exact Option.some_ne_none dv h
                  · rw [hav] at hav2; cases hav2; rw [hp] at hp2; cases hp2
                  · rw [hav] at hav2; cases hav2; rw [hp] at hp2; cases hp2
              · intro _; rfl
          | ok a =>
            dsimp only
            by_cases hle : a ≤ 0
            · constructor
              · rw [if_pos hle]
                refine iff_of_true rfl ?_
                exact Or.inr (Or.inr (Or.inr (Or.inr ⟨av, a, hav, hp, hle⟩)))
              · intro _
                rw [if_pos hle]
                rfl
            · constructor
              · rw [if_neg hle]
                refine iff_of_false ?_ ?_
                · show ¬ (200 : Nat) = 400
                  decide
                · intro hcv
                  unfold creditValidationErr at hcv
                  rcases hcv with h | h | h | ⟨av2, hav2, hp2⟩ | ⟨av2, a2, hav2, hp2, hle2⟩
                  · rw [hie] at h; exact Bool.false_ne_true h
                  · rw [hav] at h; exact Option.some_ne_none av h
                  · rw [hdv] at h; exact Option.some_ne_none dv h
                  · rw [hav] at hav2; cases hav2; rw [hp] at hp2; cases hp2
                  · rw [hav] at hav2; cases hav2; rw [hp] at hp2; cases hp2
                    exact hle hle2
              · rw [if_neg hle]
                intro hne
                exact (hne rfl).elim

/-- Witness for `credit_validation_amended`: the spec's own scenario, a
zero-amount credit is a 400 and mutates nothing. -/
theorem credit_validation_amended_witness :
    (earnKones "u1" (some [("amount", JVal.jint 0), ("description", JVal.jstr "x")])
        (initStore ["u1"])).1.status = 400 ∧
    (earnKones "u1" (some [("amount", JVal.jint 0), ("description", JVal.jstr "x")])
        (initStore ["u1"])).2 = initStore ["u1"] := by
  refine ⟨?_, ?_⟩
  · exact (credit_validation_amended "u1"
      (some [("amount", JVal.jint 0), ("description", JVal.jstr "x")])
      (initStore ["u1"])).1.mpr
      (Or.inr (Or.inr (Or.inr (Or.inr ⟨JVal.jint 0, 0, rfl, rfl, le_refl 0⟩))))
  · exact (credit_validation_amended "u1"
      (some [("amount", JVal.jint 0), ("description", JVal.jstr "x")])
      (initStore ["u1"])).2 (by decide)

/-- The read phase of the `earn_kones` balance upsert as one request
executes it (lines 176-180): whether this session's
`filter_by(...).first()` observed the identity's `KonesBalance` row as
absent. -/
def creditObservedAbsent (uid : String) (s : Store) : Bool :=
  (findBalance uid s.balances).isNone

/-- The write phase (lines 180-201) of a request whose read phase
observed no row: the session inserts its own fresh `KonesBalance` row
(created with balance 0 and then incremented by the amount), appends its
`KonesLedger` row, and commits.  `KonesBalance.user_auth_uid` carries no
uniqueness constraint (`models.py` line 33), so this insert also succeeds
when another session committed a row for the same identity in between. -/
def creditWriteAfterAbsent (uid : String) (a : Int) (dv : JVal) (s : Store) : Store :=
  { s with balances := s.balances ++ [⟨uid, 0 + a, s.time⟩],
           ledger := s.ledger ++ [⟨uid, a, dv, s.time⟩],
           time := s.time + 1 }

/-- **C4**: the first-credit race evaluated at a concrete failing input.
Two concurrent credits (5 and 7) for an identity with no `KonesBalance`
row can both run their read phase before either write commits: both
observe "absent", both insert, and the store ends with **two**
`KonesBalance` rows whose first (the one every later read returns) holds
5, not 5+7 — the duplicate-row / lost-update outcome the claim rules
out. -/
theorem first_credit_race_two_rows :
    creditObservedAbsent "u1" (initStore ["u1"]) = true ∧
    ((creditWriteAfterAbsent "u1" 7 (JVal.jstr "d2")
        (creditWriteAfterAbsent "u1" 5 (JVal.jstr "d1")
          (initStore ["u1"]))).balances.filter
            (fun r => r.user == "u1")).length = 2 ∧
    storedBalance "u1" (creditWriteAfterAbsent "u1" 7 (JVal.jstr "d2")
        (creditWriteAfterAbsent "u1" 5 (JVal.jstr "d1")
          (initStore ["u1"]))).balances = 5 ∧
    (5 : Int) ≠ 5 + 7 := by
  refine ⟨rfl, rfl, rfl, by decide⟩

/-- **C5 counterexample**: a token whose `exp` is in the past but whose
signature does not verify is rejected by `jwt.decode` at the signature
step, so the handler reports the generic invalid-token outcome (401
`Invalid format.`), not the expiry-specific one — refuting "regardless of
whether the token's signature is valid". -/
theorem expired_bad_signature_not_expired_outcome :
    getUserFromAuthHeader (some "secret") (initStore ["u1"]) 100
        (.bearer (.good ⟨some "u1", some 0, "wrong"⟩))
      = .err 401 "Invalid format." ∧
    AuthResult.err 401 "Invalid format." ≠ .err 401 "JWT has expired." := by
  exact ⟨rfl, by decide⟩

/-- **C5 (amended)**: a token whose `exp` is in the past *and whose
signature verifies against the configured secret* is always rejected with
the expiry-specific outcome (401 `JWT has expired.`); with an invalid
signature the signature check fires first and yields the invalid-token
outcome instead. -/
theorem expired_valid_signature_rejected (secret : String) (s : Store)
    (now e : Int) (tok : JwtToken) (hsec : secret ≠ "")
    (hsig : tok.signedWith = secret) (hexp : tok.exp = some e) (hlt : e < now) :
    getUserFromAuthHeader (some secret) s now (.bearer (.good tok))
      = .err 401 "JWT has expired." := by
  unfold getUserFromAuthHeader jwtDecode
  simp [hsec, hsig, hexp, hlt]

/-- Witness for `expired_valid_signature_rejected`: a correctly signed
token that expired at time 0, checked at time 100. -/
theorem expired_valid_signature_rejected_witness :
    getUserFromAuthHeader (some "secret") (initStore ["u1"]) 100
        (.bearer (.good ⟨some "u1", some 0, "secret"⟩))
      = .err 401 "JWT has expired." :=
  expired_valid_signature_rejected "secret" (initStore ["u1"]) 100 0
    ⟨some "u1", some 0, "secret"⟩ (by decide) rfl rfl (by decide)

/-- **C7**: the shared-secret gate maps *every* request key different
from the configured value — off by one character, entirely wrong, or
absent — to the one generic 403 outcome, so the observable result does
not depend on how much of the key matched or on its presence. -/
theorem trusted_gate_uniform_rejection (cfg : String) (k : Option String)
    (h : k ≠ some cfg) :
    trustedGate (some cfg) k = some (403, "Invalid API Key for trusted service.") := by
  unfold trustedGate
  simp [h]

/-- Witness for `trusted_gate_uniform_rejection`: a single-character
mutation of the configured key and an absent key get the same outcome. -/
theorem trusted_gate_uniform_rejection_witness :
    trustedGate (some "test-api-key") (some "test-api-kez")
      = some (403, "Invalid API Key for trusted service.") ∧
    trustedGate (some "test-api-key") none
      = some (403, "Invalid API Key for trusted service.") :=
  ⟨trusted_gate_uniform_rejection "test-api-key" (some "test-api-kez") (by decide),
   trusted_gate_uniform_rejection "test-api-key" none (by decide)⟩

/-- **C6 counterexample**: two different failure modes — an undecodable
(malformed) bearer credential and a well-formed token with an invalid
signature — produce the *same* reported outcome (401 `Invalid format.`),
because `DecodeError` and `InvalidSignatureError` are both caught by the
single `InvalidTokenError` handler; so the failure modes are not pairwise
distinct as claimed. -/
theorem malformed_and_bad_signature_same_outcome :
    getUserFromAuthHeader (some "secret") (initStore ["u1"]) 0 (.bearer .malformed)
      = getUserFromAuthHeader (some "secret") (initStore ["u1"]) 0
          (.bearer (.good ⟨some "u1", some 99, "wrong"⟩)) ∧
    getUserFromAuthHeader (some "secret") (initStore ["u1"]) 0 (.bearer .malformed)
      = .err 401 "Invalid format." := by
  exact ⟨rfl, rfl⟩

/-- **C6 (amended)**: the authentication failure modes map to outcomes as
follows — missing/non-Bearer header, expired token, missing subject
claim, unknown subject, and absent signing secret give five pairwise
distinct (status, message) outcomes, with the missing-secret case
reported as a 500 server-side error; a malformed credential and an
invalid signature share the single 401 `Invalid format.` outcome, itself
distinct from the other five. -/
theorem auth_failure_outcomes_amended :
    (∀ sec s now, getUserFromAuthHeader sec s now .missing
      = .err 401 "Missing or invalid Authorization header.") ∧
    (∀ sec s now, getUserFromAuthHeader sec s now .notBearer
      = .err 401 "Missing or invalid Authorization header.") ∧
    (∀ s now ts, getUserFromAuthHeader none s now (.bearer ts)
      = .err 500 "Server misconfiguration.") ∧
    (∀ sec s now, sec ≠ "" → getUserFromAuthHeader (some sec) s now
      (.bearer .malformed) = .err 401 "Invalid format.") ∧
    (∀ sec s now tok, sec ≠ "" → tok.signedWith ≠ sec →
      getUserFromAuthHeader (some sec) s now (.bearer (.good tok))
        = .err 401 "Invalid format.") ∧
    (∀ sec s now tok e, sec ≠ "" → tok.signedWith = sec → tok.exp = some e →
      e < now → getUserFromAuthHeader (some sec) s now (.bearer (.good tok))
        = .err 401 "JWT has expired.") ∧
    (∀ sec s now tok, sec ≠ "" → tok.signedWith = sec → tok.exp = none →
      tok.sub = none → getUserFromAuthHeader (some sec) s now (.bearer (.good tok))
        = .err 401 "Invalid JWT payload.") ∧
    (∀ sec s now tok u, sec ≠ "" → tok.signedWith = sec → tok.exp = none →
      tok.sub = some u → u ≠ "" → s.users.contains u = false →
      getUserFromAuthHeader (some sec) s now (.bearer (.good tok))
        = .err 404 "User not found in database.") ∧
    List.Pairwise (· ≠ ·)
      [AuthResult.err 401 "Missing or invalid Authorization header.",
       AuthResult.err 401 "Invalid format.",
       AuthResult.err 401 "JWT has expired.",
       AuthResult.err 401 "Invalid JWT payload.",
       AuthResult.err 404 "User not found in database.",
       AuthResult.err 500 "Server misconfiguration."] := by
  refine ⟨fun sec s now => rfl, fun sec s now => rfl, fun s now ts => rfl,
    ?_, ?_, ?_, ?_, ?_, by decide⟩
  · intro sec s now hsec
    unfold getUserFromAuthHeader jwtDecode
    simp [hsec]
  · intro sec s now tok hsec hsig
    unfold getUserFromAuthHeader jwtDecode
    simp [hsec, hsig]
  · intro sec s now tok e hsec hsig hexp hlt
    unfold getUserFromAuthHeader jwtDecode
    simp [hsec, hsig, hexp, hlt]
  · intro sec s now tok hsec hsig hexp hsub
    unfold getUserFromAuthHeader jwtDecode
    simp [hsec, hsig, hexp, hsub]
  · intro sec s now tok u hsec hsig hexp hsub hu hcon
    unfold getUserFromAuthHeader jwtDecode
    simp [hsec, hsig, hexp, hsub, hu, hcon]
    simpa using hcon

/-- Witness for `auth_failure_outcomes_amended`: each hypothesized
conjunct instantiated at a concrete configuration and token. -/
theorem auth_failure_outcomes_amended_witness :
    getUserFromAuthHeader (some "secret") (initStore ["u1"]) 0
        (.bearer .malformed) = .err 401 "Invalid format." ∧
    getUserFromAuthHeader (some "secret") (initStore ["u1"]) 0
        (.bearer (.good ⟨some "u1", some 99, "wrong"⟩)) = .err 401 "Invalid format." ∧
    getUserFromAuthHeader (some "secret") (initStore ["u1"]) 100
        (.bearer (.good ⟨some "u1", some 0, "secret"⟩)) = .err 401 "JWT has expired." ∧
    getUserFromAuthHeader (some "secret") (initStore ["u1"]) 0
        (.bearer (.good ⟨none, none, "secret"⟩)) = .err 401 "Invalid JWT payload." ∧
    getUserFromAuthHeader (some "secret") (initStore ["u1"]) 0
        (.bearer (.good ⟨some "ghost", none, "secret"⟩))
      = .err 404 "User not found in database." :=
  ⟨(auth_failure_outcomes_amended.2.2.2.1) "secret" (initStore ["u1"]) 0 (by decide),
   (auth_failure_outcomes_amended.2.2.2.2.1) "secret" (initStore ["u1"]) 0
     ⟨some "u1", some 99, "wrong"⟩ (by decide) (by decide),
   (auth_failure_outcomes_amended.2.2.2.2.2.1) "secret" (initStore ["u1"]) 100
     ⟨some "u1", some 0, "secret"⟩ 0 (by decide) rfl rfl (by decide),
   (auth_failure_outcomes_amended.2.2.2.2.2.2.1) "secret" (initStore ["u1"]) 0
     ⟨none, none, "secret"⟩ (by decide) rfl rfl rfl,
   (auth_failure_outcomes_amended.2.2.2.2.2.2.2.1) "secret" (initStore ["u1"]) 0
     ⟨some "ghost", none, "secret"⟩ "ghost" (by decide) rfl rfl rfl (by decide)
     (by decide)⟩

/-- **C8 counterexample**: the balance read endpoint itself creates a
`KonesBalance` row.  For a registered identity with no row, one ledger-free
`/kones/balance` read leaves the store with a zero Balance row — so
Balance rows are *not* created only by the first credit, and the read
does *not* leave all Balance rows unchanged. -/
theorem balance_read_creates_row :
    ((getKonesBalance "u1" (initStore ["u1"])).2).balances = [⟨"u1", 0, 0⟩] ∧
    ((getKonesBalance "u1" (initStore ["u1"])).2).balances
      ≠ (initStore ["u1"]).balances := by
  exact ⟨rfl, by decide⟩

/-- **C8 (amended)**: `KonesBalance` rows are created lazily by the first
credit *or by the first balance read* (which inserts a zero row when none
exists), and balance *values* are mutated only by the credit operation:
webhook recording and the ledger-history read leave the Balance table
untouched, and the balance read never changes any stored balance value,
leaves the store unchanged when a row exists, and otherwise only appends
the zero row. -/
theorem balance_frame_amended :
    (∀ uid d s, ((webhookSync uid d s).2).balances = s.balances) ∧
    (∀ uid s, (getKonesLedger uid s).2 = s) ∧
    (∀ uid s u, storedBalance u ((getKonesBalance uid s).2).balances
      = storedBalance u s.balances) ∧
    (∀ uid s b, findBalance uid s.balances = some b → (getKonesBalance uid s).2 = s) ∧
    (∀ uid s, findBalance uid s.balances = none →
      ((getKonesBalance uid s).2).balances = s.balances ++ [⟨uid, 0, s.time⟩]) := by
  refine ⟨fun uid d s => (webhookSync_frame uid d s).1, fun uid s => rfl, ?_, ?_, ?_⟩
  · intro uid s u
    rcases getKonesBalance_state uid s with heq | ⟨hf, heq⟩
    · rw [heq]
    · rw [heq]
      exact storedBalance_append_zero s.time hf u
  · intro uid s b hf
    unfold getKonesBalance
    rw [hf]
  · intro uid s hf
    unfold getKonesBalance
    rw [hf]

/-- Witness for `balance_frame_amended`: the hypothesized conjuncts
instantiated — a store that has a row for `u1` is untouched by a balance
read, and a fresh store gains exactly the zero row. -/
theorem balance_frame_amended_witness :
    (getKonesBalance "u1"
        ⟨["u1"], [⟨"u1", 9, 0⟩], [], [], 1⟩).2 = ⟨["u1"], [⟨"u1", 9, 0⟩], [], [], 1⟩ ∧
    ((getKonesBalance "u2" (initStore ["u2"])).2).balances = [⟨"u2", 0, 0⟩] :=
  ⟨balance_frame_amended.2.2.2.1 "u1" ⟨["u1"], [⟨"u1", 9, 0⟩], [], [], 1⟩
     ⟨"u1", 9, 0⟩ rfl,
   (balance_frame_amended.2.2.2.2 "u2" (initStore ["u2"]) rfl).trans rfl⟩

/-- **C9 counterexample**: a webhook request in which both fields are
*present* but `payload` is the empty object is rejected with the 400
validation outcome (Python truthiness conflates empty with missing), and
nothing is stored — refuting "when both are present it stores exactly one
AuditLogEntry". -/
theorem webhook_empty_payload_rejected :
    webhookSync "u1"
        (some [("event_type", JVal.jstr "purchase complete"),
               ("payload", JVal.jobj [])]) (initStore ["u1"])
      = (⟨400, "Request must include 'event_type' and 'payload'.", none, none⟩,
         initStore ["u1"]) := rfl

/-- **C9 (amended)**: the webhook recorder rejects with the one 400
validation outcome (leaving the store unchanged) whenever `event_type`
or `payload` is missing *or falsy* (empty string/object/list, `null`,
`false`, 0); when both are truthy and `event_type` is a string it commits
exactly one `Chronolog` row whose tag is the event type uppercased with
spaces replaced by underscores and prefixed `WEBHOOK_`, touching no
`KonesBalance` or `KonesLedger` rows. -/
theorem webhook_amended :
    (∀ uid d s, ((jget d "event_type").truthy = false ∨
        (jget d "payload").truthy = false) →
      webhookSync uid (some d) s =
        (⟨400, "Request must include 'event_type' and 'payload'.", none, none⟩, s)) ∧
    (∀ uid d s ev, jget d "event_type" = .jstr ev → ev ≠ "" →
      (jget d "payload").truthy = true →
      webhookSync uid (some d) s =
        (⟨200, "Webhook event processed.", none,
          some ("WEBHOOK_" ++ pyReplaceSpace (pyUpper ev))⟩,
         ⟨s.users, s.balances, s.ledger,
          s.chronolog ++
            [⟨uid, "WEBHOOK_" ++ pyReplaceSpace (pyUpper ev), jget d "payload", s.time⟩],
          s.time + 1⟩)) := by
  constructor
  · intro uid d s hfal
    unfold webhookSync
    rcases hfal with h | h <;> simp [h]
  · intro uid d s ev hev hne hpl
    unfold webhookSync
    dsimp only
    rw [hev]
    have het : (JVal.jstr ev).truthy = true := by
      simp [JVal.truthy, hne]
    simp [het, hpl]

/-- Witness for `webhook_amended`: the spec's own scenario — event type
`purchase complete` is stored with tag `WEBHOOK_PURCHASE_COMPLETE`. -/
theorem webhook_amended_witness :
    webhookSync "u1"
        (some [("event_type", JVal.jstr "purchase complete"),
               ("payload", JVal.jobj [("order", JVal.jint 1)])]) (initStore ["u1"])
      = (⟨200, "Webhook event processed.", none, some "WEBHOOK_PURCHASE_COMPLETE"⟩,
         { users := ["u1"], balances := [], ledger := [],
           chronolog := [⟨"u1", "WEBHOOK_PURCHASE_COMPLETE",
             JVal.jobj [("order", JVal.jint 1)], 0⟩], time := 1 }) := by
  have h := webhook_amended.2 "u1"
    [("event_type", JVal.jstr "purchase complete"),
     ("payload", JVal.jobj [("order", JVal.jint 1)])]
    (initStore ["u1"]) "purchase complete" rfl (by decide) rfl
  have hs : "WEBHOOK_" ++ pyReplaceSpace (pyUpper "purchase complete")
      = "WEBHOOK_PURCHASE_COMPLETE" := by decide
  rw [hs] at h
  exact h

/-- **C10**: a decimal-string `amount` such as `"50"` is accepted by the
credit operation and behaves identically to the same request carrying the
integer it denotes, because the handler funnels the field through
`int(data['amount'])`. -/
theorem credit_decimal_string_amount (uid : String)
    (d1 d2 : List (String × JVal)) (s : Store) (str : String) (n : Int)
    (h1 : jlookup d1 "amount" = some (.jstr str))
    (h2 : jlookup d2 "amount" = some (.jint n))
    (hp : pyStrToInt str = some n)
    (hd : jlookup d1 "description" = jlookup d2 "description") :
    earnKones uid (some d1) s = earnKones uid (some d2) s := by
  have e1 := jlookup_isEmpty_false h1
  have e2 := jlookup_isEmpty_false h2
  have hpi : pyToInt (.jstr str) = .ok n := by
    simp [pyToInt, hp]
  unfold earnKones
  dsimp only
  rw [h1, h2, hd, e1, e2]
  cases hdd : jlookup d2 "description" with
  | none => rfl
  | some dv =>
    dsimp only
    rw [hpi]
    rfl

/-- Witness for `credit_decimal_string_amount`: `"50"` and `50` produce
identical responses and stores. -/
theorem credit_decimal_string_amount_witness :
    earnKones "u1"
        (some [("amount", JVal.jstr "50"), ("description", JVal.jstr "bonus")])
        (initStore ["u1"])
      = earnKones "u1"
          (some [("amount", JVal.jint 50), ("description", JVal.jstr "bonus")])
          (initStore ["u1"]) :=
  credit_decimal_string_amount "u1"
    [("amount", JVal.jstr "50"), ("description", JVal.jstr "bonus")]
    [("amount", JVal.jint 50), ("description", JVal.jstr "bonus")]
    (initStore ["u1"]) "50" 50 rfl rfl (by decide) rfl
